import Mathlib

/-!
Verification of the Odoo XML-RPC inventory Lambda
(`src/list_inventory_lambda.py`).

The file contains a shallow embedding of the Lambda handler: JSON values,
the environment-derived configuration, the inbound Function-URL event, a
pure interpreter for the Odoo models used by the handler (`product.product`
and `product.tag`), and the five endpoint handlers together with the router
(`lambda_handler`).  Every RPC issued through `models.execute_kw` is both
interpreted against a pure database value and recorded in a trace, so that
theorems can speak about which calls were issued and in which order.
-/

namespace Odoo

/-- JSON values, as produced by `json.loads` on a request body and consumed
by `json.dumps` when building a response body. -/
inductive JVal where
  | null : JVal
  | bool (b : Bool) : JVal
  | num (q : Rat) : JVal
  | str (s : String) : JVal
  | arr (xs : List JVal) : JVal
  | obj (kvs : List (String × JVal)) : JVal

/-- A request body: either a string that fails `json.loads`
(`JSONDecodeError`), or a decoded JSON object. -/
inductive Body where
  | malformed : Body
  | obj (kvs : List (String × JVal)) : Body

/-- Python truthiness of a JSON value (`if x:`). -/
def jTruthy : JVal → Bool
  | .null => false
  | .bool b => b
  | .num q => decide (q ≠ 0)
  | .str s => decide (s ≠ "")
  | .arr xs => !xs.isEmpty
  | .obj kvs => !kvs.isEmpty

/-- Lookup backing `data[k]` / `k in data`: first binding of a key in a decoded
JSON object. -/
def getKV (kvs : List (String × JVal)) (k : String) : Option JVal :=
  (kvs.find? (fun kv => kv.1 == k)).map (fun kv => kv.2)

/-- Python `dict.get(k, default)` on a decoded JSON object. -/
def jGet (kvs : List (String × JVal)) (k : String) (d : JVal) : JVal :=
  (getKV kvs k).getD d

/-- Model of `query_params.get(k)`: query-string parameters are string-valued. -/
def qpGet (qp : List (String × String)) (k : String) : Option String :=
  (qp.find? (fun kv => kv.1 == k)).map (fun kv => kv.2)

/-- Python whitespace test used by `str.strip()`. -/
def isSpaceCh (c : Char) : Bool :=
  c == ' ' || c == '\t' || c == '\n' || c == '\r' || c == '\x0b' || c == '\x0c'

/-- Model of `str.strip()`: drop leading and trailing whitespace. -/
def trimStr (s : String) : String :=
  String.mk (((s.toList.dropWhile isSpaceCh).reverse.dropWhile isSpaceCh).reverse)

/-- Model of `str.lower()`. -/
def lowerStr (s : String) : String :=
  String.mk (s.toList.map Char.toLower)

/-- The first list is a leading segment of the second. -/
def listPre : List Char → List Char → Bool
  | [], _ => true
  | _ :: _, [] => false
  | a :: as, b :: bs => a == b && listPre as bs

/-- Whether `pat` occurs contiguously inside `hay`. -/
def listSub (pat : List Char) : List Char → Bool
  | [] => listPre pat []
  | c :: rest => listPre pat (c :: rest) || listSub pat rest

/-- Odoo `ilike` with no explicit wildcards: case-insensitive substring
match (Odoo surrounds the operand with `%`). -/
def ilike (s pat : String) : Bool :=
  listSub (lowerStr pat).toList (lowerStr s).toList

/-- Accumulating decimal-digit parser; fails on any non-digit. -/
def digitsValGo : List Char → Nat → Option Nat
  | [], acc => some acc
  | c :: rest, acc =>
      if c.isDigit then digitsValGo rest (acc * 10 + (c.toNat - 48)) else none

/-- Value of a non-empty all-digit string. -/
def digitsVal : List Char → Option Nat
  | [] => none
  | cs => digitsValGo cs 0

/-- Python `int(s)` on a string: optional sign followed by digits
(whitespace stripped); anything else raises `ValueError`. -/
def pyIntStr (s : String) : Option Int :=
  match (trimStr s).toList with
  | '-' :: rest => (digitsVal rest).map (fun n => -(n : Int))
  | '+' :: rest => (digitsVal rest).map (fun n => (n : Int))
  | l => (digitsVal l).map (fun n => (n : Int))

/-- Magnitude of a Python float literal: digits with an optional decimal
point. -/
def splitDotGo : List Char → List Char → List (List Char)
  | [], acc => [acc.reverse]
  | c :: rest, acc =>
      if c == '.' then acc.reverse :: splitDotGo rest [] else splitDotGo rest (c :: acc)

/-- Magnitude of a Python float literal: digits with an optional decimal
point (`"5"`, `"5."`, `".5"`, `"5.25"`). -/
def pyFloatMag (t : String) : Option Rat :=
  match splitDotGo t.toList [] with
  | [a] => (digitsVal a).map (fun n => (n : Rat))
  | [a, b] =>
      match a, b with
      | [], [] => none
      | as, bs =>
          let ai : Option Nat := if as.isEmpty then some 0 else digitsVal as
          let bi : Option Nat := if bs.isEmpty then some 0 else digitsVal bs
          match ai, bi with
          | some x, some y => some ((x : Rat) + (y : Rat) / ((10 : Rat) ^ bs.length))
          | _, _ => none
  | _ => none

/-- Python `float(s)` on a string: optional sign and a decimal literal;
anything else raises `ValueError`. -/
def pyFloatStr (s : String) : Option Rat :=
  match (trimStr s).toList with
  | '-' :: rest => (pyFloatMag (String.mk rest)).map (fun q => -q)
  | '+' :: rest => (pyFloatMag (String.mk rest)).map (fun q => q)
  | _ => pyFloatMag (trimStr s)

/-- Truncation toward zero, as Python `int()` applied to a float. -/
def ratTrunc (q : Rat) : Int :=
  Int.tdiv q.num (q.den : Int)

/-- Python `int(x)` on a JSON value; `.error ()` models the raised
`ValueError`/`TypeError`. -/
def pyInt : JVal → Except Unit Int
  | .num q => .ok (ratTrunc q)
  | .bool b => .ok (if b then 1 else 0)
  | .str s => match pyIntStr s with | some n => .ok n | none => .error ()
  | _ => .error ()

/-- Python `float(x)` on a JSON value. -/
def pyFloat : JVal → Except Unit Rat
  | .num q => .ok q
  | .bool b => .ok (if b then 1 else 0)
  | .str s => match pyFloatStr s with | some q => .ok q | none => .error ()
  | _ => .error ()

/-- Python `x.strip()`: only defined on strings, an `AttributeError`
(modelled as `.error ()`) otherwise. -/
def pyStrStrip : JVal → Except Unit String
  | .str s => .ok (trimStr s)
  | _ => .error ()

/-- Python `str(x)`/f-string rendering, used only inside human-readable
message strings. -/
def jstr : JVal → String
  | .null => "None"
  | .bool b => if b then "True" else "False"
  | .num q => toString q
  | .str s => s
  | .arr _ => "[...]"
  | .obj _ => "\x7b...\x7d"

/-- A `product.product` record, restricted to the fields the Lambda reads
or writes. -/
structure Product where
  pid : Nat
  name : String
  default_code : String
  list_price : Rat
  standard_price : Rat
  typ : String
  categ_id : Int
  currency : Option (Nat × String)
  product_tag_ids : List Nat

/-- A `product.tag` record.  `color` is kept as a JSON value because
`handle_create_tag` forwards the client-supplied color unconverted. -/
structure Tag where
  tid : Nat
  name : String
  color : JVal

/-- The remote ERP state visible through the RPC calls the Lambda makes. -/
structure OdooDB where
  products : List Product
  tags : List Tag
  nextId : Nat

/-- One item of an Odoo search domain: the `'|'` disjunction operator or a
`(field, operator, value)` condition. -/
inductive DomItem where
  | orOp : DomItem
  | cond (field op : String) (v : JVal) : DomItem

/-- Evaluate one domain unit in prefix notation: a condition, or `'|'`
applied to the next two units.  Returns the truth value and the remaining
items; fuelled (the fuel is an upper bound on consumed items). -/
def evalUnit (pred : String → String → JVal → Bool) :
    Nat → List DomItem → Option (Bool × List DomItem)
  | 0, _ => none
  | _ + 1, [] => none
  | _ + 1, .cond f o v :: rest => some (pred f o v, rest)
  | fuel + 1, .orOp :: rest =>
      match evalUnit pred fuel rest with
      | none => none
      | some (b1, r1) =>
          match evalUnit pred fuel r1 with
          | none => none
          | some (b2, r2) => some (b1 || b2, r2)

/-- Conjoin the successive units of a domain (Odoo's implicit `AND`). -/
def evalDomainAux (pred : String → String → JVal → Bool) :
    Nat → List DomItem → Bool
  | _, [] => true
  | 0, _ :: _ => false
  | fuel + 1, d =>
      match evalUnit pred d.length d with
      | none => false
      | some (b, rest) => b && evalDomainAux pred fuel rest

/-- Whether a record (represented by its field predicate) satisfies a
search domain. -/
def evalDomain (pred : String → String → JVal → Bool) (d : List DomItem) : Bool :=
  evalDomainAux pred d.length d

/-- Field predicate for `product.product`, covering the conditions the
Lambda builds. -/
def productPred (p : Product) : String → String → JVal → Bool
  | "type", "=", .str s => p.typ == s
  | "name", "=", .str s => p.name == s
  | "name", "ilike", .str s => ilike p.name s
  | "default_code", "ilike", .str s => ilike p.default_code s
  | "categ_id", "=", .num q => ((p.categ_id : Rat) == q)
  | _, _, _ => false

/-- Field predicate for `product.tag`. -/
def tagPred (t : Tag) : String → String → JVal → Bool
  | "name", "=", .str s => t.name == s
  | "name", "ilike", .str s => ilike t.name s
  | "id", "in", .arr xs =>
      xs.any (fun v => match v with
        | .num q => ((t.tid : Rat) == q)
        | _ => false)
  | _, _, _ => false

/-- Insert into a list sorted by a string key (used to model
`order='name'`). -/
def insertByKey {α : Type} (key : α → String) (x : α) : List α → List α
  | [] => [x]
  | y :: rest =>
      match compare (key x) (key y) with
      | .gt => y :: insertByKey key x rest
      | _ => x :: y :: rest

/-- Insertion sort by a string key. -/
def sortByKey {α : Type} (key : α → String) : List α → List α
  | [] => []
  | x :: rest => insertByKey key x (sortByKey key rest)

/-- Optional search kwargs: `(limit, offset, order)`. -/
abbrev SearchKw := Option (Int × Int × String)

/-- Apply search kwargs to the filtered records. -/
def applyKw {α : Type} (key : α → String) (kw : SearchKw) (l : List α) : List α :=
  match kw with
  | none => l
  | some (limit, offset, ord) =>
      let sorted := if ord == "name" then sortByKey key l else l
      (sorted.drop offset.toNat).take limit.toNat

/-- Model of `product.product` `search`: ids of the matching records. -/
def productSearch (db : OdooDB) (dom : List DomItem) (kw : SearchKw) : List Nat :=
  (applyKw (fun p => p.name) kw
    (db.products.filter (fun p => evalDomain (productPred p) dom))).map (fun p => p.pid)

/-- Model of `product.product` `search_count`. -/
def productSearchCount (db : OdooDB) (dom : List DomItem) : Nat :=
  (db.products.filter (fun p => evalDomain (productPred p) dom)).length

/-- Model of `product.product` `read`: the records for the given ids (missing ids
dropped). -/
def productRead (db : OdooDB) (ids : List Nat) : List Product :=
  ids.filterMap (fun i => db.products.find? (fun p => p.pid == i))

/-- Model of `product.tag` `search`. -/
def tagSearch (db : OdooDB) (dom : List DomItem) (kw : SearchKw) : List Nat :=
  (applyKw (fun t => t.name) kw
    (db.tags.filter (fun t => evalDomain (tagPred t) dom))).map (fun t => t.tid)

/-- Model of `product.tag` `search_count`. -/
def tagSearchCount (db : OdooDB) (dom : List DomItem) : Nat :=
  (db.tags.filter (fun t => evalDomain (tagPred t) dom)).length

/-- Model of `product.tag` `read`. -/
def tagRead (db : OdooDB) (ids : List Nat) : List Tag :=
  ids.filterMap (fun i => db.tags.find? (fun t => t.tid == i))

/-- Model of `product.tag` `create`. -/
def tagCreate (db : OdooDB) (name : String) (color : JVal) : Nat × OdooDB :=
  (db.nextId,
    { db with tags := db.tags ++ [⟨db.nextId, name, color⟩], nextId := db.nextId + 1 })

/-- A JSON value usable as a record id. -/
def jvalNat : JVal → Option Nat
  | .num q => if q.den = 1 ∧ 0 ≤ q.num then some q.num.toNat else none
  | _ => none

/-- Model of `product.product` `create` with the field dict built by
`handle_create_product`. -/
def productCreate (db : OdooDB) (name : String) (lp : Rat) (tagIds : List Nat)
    (std : Option Rat) : Nat × OdooDB :=
  (db.nextId,
    { db with
        products := db.products ++
          [⟨db.nextId, name, "", lp, std.getD 0, "product", 0, none, tagIds⟩],
        nextId := db.nextId + 1 })

/-- Model of `product.product` `write` with the update dict built by
`handle_update_product`. -/
def productWrite (db : OdooDB) (ids : List Nat) (lp : Rat) (std : Option Rat) : OdooDB :=
  { db with
      products := db.products.map (fun p =>
        if p.pid ∈ ids then
          { p with list_price := lp, standard_price := std.getD p.standard_price }
        else p) }

/-- Trace entry: one `models.execute_kw` invocation. -/
inductive Call where
  | search (model : String) (dom : List DomItem) (kw : SearchKw)
  | searchCount (model : String) (dom : List DomItem)
  | readRpc (model : String) (ids : List Nat) (fields : List String)
  | createTagRpc (name : String) (color : JVal)
  | createProductRpc (name : String) (lp : Rat) (tagIds : List JVal) (std : Option Rat)
  | writeRpc (model : String) (ids : List Nat) (lp : Rat) (std : Option Rat)

/-- Is this trace entry a `write` RPC? -/
def isWrite : Call → Bool
  | .writeRpc _ _ _ _ => true
  | _ => false

/-- Is this trace entry a `create` RPC? -/
def isCreate : Call → Bool
  | .createTagRpc _ _ => true
  | .createProductRpc _ _ _ _ => true
  | _ => false

/-- Is this trace entry a `search_count` RPC? -/
def isSearchCount : Call → Bool
  | .searchCount _ _ => true
  | _ => false

/-- Is this trace entry a `read` on `product.tag`? -/
def isTagRead : Call → Bool
  | .readRpc m _ _ => m == "product.tag"
  | _ => false

/-- Environment-derived configuration.  `odooAuthOk` abstracts whether the
external `common.authenticate` call returns a truthy uid. -/
structure Config where
  CLIENT_ID : Option String
  CLIENT_SECRET : Option String
  VERIFY_SSL_raw : Option String
  odooAuthOk : Bool

/-- Truthiness of an environment value (`os.environ.get` returns `None` or
a string; the empty string is falsy). -/
def envTruthy : Option String → Bool
  | none => false
  | some s => decide (s ≠ "")

/-- Computation of `VERIFY_SSL = os.environ.get('VERIFY_SSL', 'false').lower() == 'true'`. -/
def VERIFY_SSL (cfg : Config) : Bool :=
  lowerStr (cfg.VERIFY_SSL_raw.getD "false") == "true"

/-- TLS verification mode of an `ssl.SSLContext`. -/
inductive VerifyMode where
  | certRequired : VerifyMode
  | certNone : VerifyMode
deriving DecidableEq

/-- The two `SSLContext` attributes the Lambda touches. -/
structure SslContext where
  check_hostname : Bool
  verify_mode : VerifyMode
deriving DecidableEq

/-- Model of `ssl.create_default_context()`: hostname checking on, certificates
required. -/
def ssl_create_default_context : SslContext :=
  ⟨true, .certRequired⟩

/-- The SSL context handed to both `ServerProxy` channels. -/
def buildSslContext (cfg : Config) : SslContext :=
  let ctx := ssl_create_default_context
  if !VERIFY_SSL cfg then ⟨false, .certNone⟩ else ctx

/-- An inbound Lambda Function-URL event, restricted to the fields the
handler reads. -/
structure Event where
  method : Option String
  rawPath : String
  headers : List (String × String)
  queryStringParameters : Option (List (String × String))
  body : Option Body

/-- An HTTP response as returned by the handler. -/
structure Response where
  statusCode : Nat
  rheaders : List (String × String)
  body : Option JVal

/-- Response with a JSON `error` body. -/
def errResp (code : Nat) (msg : String) : Response :=
  ⟨code, [], some (.obj [("error", .str msg)])⟩

/-- The 401 response of the shared-secret check. -/
def resp401 : Response :=
  errResp 401 "Unauthorized"

/-- The routing-level catch-all 500 response. -/
def resp500internal : Response :=
  errResp 500 "Internal server error"

/-- CORS headers attached to the JSON success responses. -/
def corsJson : List (String × String) :=
  [("Access-Control-Allow-Origin", "*"), ("Content-Type", "application/json")]

/-- The case-insensitive header scan of `authenticate_request`:
`True` when the received pair does NOT match the configured pair. -/
def clientCheckFails (cfg : Config) (ev : Event) : Bool :=
  let recId := ev.headers.foldl
    (fun acc kv => if lowerStr kv.1 == "x-client-id" then some kv.2 else acc) none
  let recSec := ev.headers.foldl
    (fun acc kv => if lowerStr kv.1 == "x-client-secret" then some kv.2 else acc) none
  !(decide (recId = cfg.CLIENT_ID ∧ recSec = cfg.CLIENT_SECRET))

/-- Step 1 of `authenticate_request`: open the two ERP channels under the
configured SSL context and authenticate; a falsy uid is caught and mapped
to a 500 response. -/
def odooAuthenticate (cfg : Config) : Except Response SslContext :=
  let ctx := buildSslContext cfg
  if cfg.odooAuthOk then .ok ctx
  else .error (errResp 500
    "Could not authenticate with Odoo: Authentication failed. Please check credentials.")

/-- Model of `authenticate_request`: shared-secret check (only when both values are
configured and truthy), then ERP authentication.  `.ok` carries the SSL
context of the opened channels. -/
def authenticate_request (cfg : Config) (ev : Event) : Except Response SslContext :=
  if envTruthy cfg.CLIENT_ID && envTruthy cfg.CLIENT_SECRET && clientCheckFails cfg ev then
    .error resp401
  else
    odooAuthenticate cfg

/-- Result of a handler: the response (or a propagating Python exception),
the ERP state after any mutations, and the trace of issued RPCs. -/
abbrev HRes := Except Unit Response × OdooDB × List Call

/-- A `try/except Exception` block: a propagating exception is converted to
a 500 response with the given message; RPCs issued before the exception
keep their effects. -/
def catchWith (msg : String) : HRes → HRes
  | (.error _, db, tr) => (.ok (errResp 500 msg), db, tr)
  | r => r

/-- A tag record as it appears in a JSON response (`read` result shape). -/
def tagToJ (t : Tag) : JVal :=
  .obj [("id", .num (t.tid : Rat)), ("name", .str t.name), ("color", t.color)]

/-- Final 200 response of a successful single-match update. -/
def updateProductRespond (update_cost_price : Bool) (current updated : Product)
    (db2 : OdooDB) (product_tags : List JVal) (tr : List Call) : HRes :=
  (.ok ⟨200, corsJson, some (.obj
    [("success", .bool true),
     ("message", .str "Product price updated successfully"),
     ("data", .obj
       [("id", .num (updated.pid : Rat)),
        ("name", .str updated.name),
        ("previous_price", .num current.list_price),
        ("new_price", .num updated.list_price),
        ("cost_price", .num updated.standard_price),
        ("cost_price_updated", .bool update_cost_price),
        ("tags", .arr product_tags)])])⟩,
   db2, tr)

/-- Single-match path of `handle_update_product`: read the current record,
issue the `write`, read the record back, and fetch tag details. -/
def updateProductSingle (new_price : Rat) (update_cost_price : Bool)
    (db : OdooDB) (pid : Nat) (tr1 : List Call) : HRes :=
  let tr2 := tr1 ++
    [Call.readRpc "product.product" [pid] ["id", "name", "list_price", "standard_price"]]
  match productRead db [pid] with
  | [] => (.error (), db, tr2)
  | current :: _ =>
      let std := if update_cost_price then some new_price else none
      let db2 := productWrite db [pid] new_price std
      let tr3 := tr2 ++ [Call.writeRpc "product.product" [pid] new_price std]
      let tr4 := tr3 ++ [Call.readRpc "product.product" [pid]
        ["id", "name", "list_price", "standard_price", "product_tag_ids"]]
      match productRead db2 [pid] with
      | [] => (.error (), db2, tr4)
      | updated :: _ =>
          if updated.product_tag_ids ≠ [] then
            updateProductRespond update_cost_price current updated db2
              ((tagRead db2 updated.product_tag_ids).map tagToJ)
              (tr4 ++ [Call.readRpc "product.tag" updated.product_tag_ids
                ["id", "name", "color"]])
          else updateProductRespond update_cost_price current updated db2 [] tr4

/-- Resolution of the name search of `handle_update_product`: 0 matches is
404, several matches is 400 with the candidate list and no mutation, one
match proceeds to the write. -/
def updateProductResolve (product_name : String) (new_price : Rat)
    (update_cost_price : Bool) (db : OdooDB) (product_ids : List Nat)
    (tr1 : List Call) : HRes :=
  match product_ids with
  | [] =>
      (.ok ⟨404, [], some (.obj
        [("error", .str (s!"Product not found: {product_name}")),
         ("suggestion", .str "Try using the search API to find the exact product name")])⟩,
       db, tr1)
  | pid :: rest =>
      if rest ≠ [] then
        (.ok ⟨400, [], some (.obj
          [("error", .str (s!"Multiple products found matching \"{product_name}\"")),
           ("matches", .arr ((productRead db (pid :: rest)).map (fun p =>
             .obj [("id", .num (p.pid : Rat)), ("name", .str p.name)]))),
           ("suggestion", .str "Please use the exact product name")])⟩,
         db, tr1 ++ [Call.readRpc "product.product" (pid :: rest) ["id", "name"]])
      else updateProductSingle new_price update_cost_price db pid tr1

/-- Body of `handle_update_product` after the input was validated: search
by exact name, fall back to `ilike`, and resolve 0 / many / 1 matches. -/
def updateProductCore (product_name : String) (new_price : Rat)
    (update_cost_price : Bool) (db : OdooDB) : HRes :=
  let exactDom := [DomItem.cond "name" "=" (.str product_name)]
  let e := productSearch db exactDom none
  let tr0 := [Call.search "product.product" exactDom none]
  let ilikeDom := [DomItem.cond "name" "ilike" (.str product_name)]
  if e = [] then
    updateProductResolve product_name new_price update_cost_price db
      (productSearch db ilikeDom none)
      (tr0 ++ [Call.search "product.product" ilikeDom none])
  else updateProductResolve product_name new_price update_cost_price db e tr0

/-- Body of `handle_update_product` after authentication: body parsing and
validation, then the search/write phase under its `try/except`. -/
def updateProductBody (ev : Event) (db : OdooDB) : HRes :=
  match ev.body with
  | none => (.ok (errResp 400 "Request body is required"), db, [])
  | some .malformed => (.ok (errResp 400 "Invalid JSON in request body"), db, [])
  | some (.obj data) =>
      match getKV data "product_name" with
      | none => (.ok (errResp 400 "product_name is required"), db, [])
      | some pn =>
          match getKV data "price" with
          | none => (.ok (errResp 400 "price is required"), db, [])
          | some pv =>
              match pyStrStrip pn with
              | .error _ => (.error (), db, [])
              | .ok product_name =>
                  if product_name = "" then
                    (.ok (errResp 400 "Product name cannot be empty"), db, [])
                  else
                    match pyFloat pv with
                    | .error _ =>
                        (.ok (errResp 400 "Price must be a valid number"), db, [])
                    | .ok new_price =>
                        if new_price < 0 then
                          (.ok (errResp 400 "Price must be a positive number"), db, [])
                        else
                          let update_cost_price :=
                            jTruthy (jGet data "update_cost_price" (.bool false))
                          catchWith "Could not update product: unexpected error"
                            (updateProductCore product_name new_price update_cost_price db)

/-- Model of `handle_update_product` (`PUT /products`, and `POST /products` with an
update-shaped body). -/
def handle_update_product (cfg : Config) (ev : Event) (db : OdooDB) : HRes :=
  match authenticate_request cfg ev with
  | .error r => (.ok r, db, [])
  | .ok _ => updateProductBody ev db

/-- Search/create phase of `handle_create_tag`: duplicate-name check, then
the `create` RPC. -/
def createTagCore (tag_name : String) (color : JVal) (db : OdooDB) : HRes :=
  let dom := [DomItem.cond "name" "=" (.str tag_name)]
  let existing_tags := tagSearch db dom none
  let tr0 := [Call.search "product.tag" dom none]
  if existing_tags ≠ [] then
    (.ok (errResp 409 (s!"Tag \"{tag_name}\" already exists")), db, tr0)
  else
    match tagCreate db tag_name color with
    | (tag_id, db2) =>
      (.ok ⟨201, corsJson, some (.obj
        [("success", .bool true),
         ("message", .str "Tag created successfully"),
         ("data", .obj
           [("id", .num (tag_id : Rat)),
            ("name", .str tag_name),
            ("color", color)])])⟩,
       db2, tr0 ++ [Call.createTagRpc tag_name color])

/-- Body of `handle_create_tag` after authentication. -/
def createTagBody (ev : Event) (db : OdooDB) : HRes :=
  match ev.body with
  | none => (.ok (errResp 400 "Request body is required"), db, [])
  | some .malformed => (.ok (errResp 400 "Invalid JSON in request body"), db, [])
  | some (.obj data) =>
      match getKV data "name" with
      | none => (.ok (errResp 400 "Tag name is required"), db, [])
      | some nv =>
          match pyStrStrip nv with
          | .error _ => (.error (), db, [])
          | .ok tag_name =>
              if tag_name = "" then
                (.ok (errResp 400 "Tag name cannot be empty"), db, [])
              else
                let color := jGet data "color" (.num 0)
                catchWith "Could not create tag: unexpected error"
                  (createTagCore tag_name color db)

/-- Model of `handle_create_tag` (`POST /tags` with a create-shaped body). -/
def handle_create_tag (cfg : Config) (ev : Event) (db : OdooDB) : HRes :=
  match authenticate_request cfg ev with
  | .error r => (.ok r, db, [])
  | .ok _ => createTagBody ev db

/-- Final 201 response of a successful product creation. -/
def createProductRespond (product_id : Nat) (created : Product) (db2 : OdooDB)
    (product_tags : List JVal) (tr : List Call) : HRes :=
  (.ok ⟨201, corsJson, some (.obj
    [("success", .bool true),
     ("message", .str "Product created successfully"),
     ("data", .obj
       [("id", .num (product_id : Rat)),
        ("name", .str created.name),
        ("cost_price", .num created.standard_price),
        ("sale_price", .num created.list_price),
        ("tags", .arr product_tags),
        ("can_be_sold", .bool true),
        ("can_be_purchased", .bool false)])])⟩,
   db2, tr)

/-- Search/create phase of `handle_create_product`: duplicate-name check,
the `create` RPC, a read-back of the created record, and the tag-detail
read. -/
def createProductCore (product_name : String) (sales_price : Rat)
    (cost_price : Option Rat) (tag_ids : List JVal) (db : OdooDB)
    (tr : List Call) : HRes :=
  let dom := [DomItem.cond "name" "=" (.str product_name)]
  let existing_products := productSearch db dom none
  let tr0 := tr ++ [Call.search "product.product" dom none]
  if existing_products ≠ [] then
    (.ok (errResp 409 (s!"Product \"{product_name}\" already exists")), db, tr0)
  else
    let linked := if tag_ids.isEmpty then [] else tag_ids.filterMap jvalNat
    match productCreate db product_name sales_price linked cost_price with
    | (product_id, db2) =>
      let tr1 := tr0 ++ [Call.createProductRpc product_name sales_price tag_ids cost_price]
      let tr2 := tr1 ++ [Call.readRpc "product.product" [product_id]
        ["id", "name", "standard_price", "list_price", "product_tag_ids"]]
      match productRead db2 [product_id] with
      | [] => (.error (), db2, tr2)
      | created :: _ =>
          if created.product_tag_ids ≠ [] then
            createProductRespond product_id created db2
              ((tagRead db2 created.product_tag_ids).map tagToJ)
              (tr2 ++ [Call.readRpc "product.tag" created.product_tag_ids
                ["id", "name", "color"]])
          else createProductRespond product_id created db2 [] tr2

/-- Tag-id validation step of `handle_create_product` (`tag_ids` must be a
list when truthy; every listed id must be found by one `search` RPC whose
result count must equal the list length), then the create phase. -/
def createProductTags (product_name : String) (sales_price : Rat)
    (cost_price : Option Rat) (data : List (String × JVal)) (db : OdooDB) : HRes :=
  let tag_ids := jGet data "tag_ids" (.arr [])
  if jTruthy tag_ids then
    match tag_ids with
    | .arr xs =>
        let dom := [DomItem.cond "id" "in" (.arr xs)]
        let existing_tags := tagSearch db dom none
        let tr0 := [Call.search "product.tag" dom none]
        if existing_tags.length ≠ xs.length then
          (.ok (errResp 400 "One or more tag IDs do not exist"), db, tr0)
        else
          catchWith "Could not create product: unexpected error"
            (createProductCore product_name sales_price cost_price xs db tr0)
    | _ => (.ok (errResp 400 "tag_ids must be an array of tag IDs"), db, [])
  else
    catchWith "Could not create product: unexpected error"
      (createProductCore product_name sales_price cost_price [] db [])

/-- Body of `handle_create_product` after authentication: body validation
(including the tag-id existence count check), then the create phase. -/
def createProductBody (ev : Event) (db : OdooDB) : HRes :=
  match ev.body with
  | none => (.ok (errResp 400 "Request body is required"), db, [])
  | some .malformed => (.ok (errResp 400 "Invalid JSON in request body"), db, [])
  | some (.obj data) =>
      match getKV data "name" with
      | none => (.ok (errResp 400 "name is required"), db, [])
      | some nv =>
          if (getKV data "cost").isNone && (getKV data "price").isNone then
            (.ok (errResp 400 "price is required (or use legacy \"cost\" field)"), db, [])
          else
            match pyStrStrip nv with
            | .error _ => (.error (), db, [])
            | .ok product_name =>
                if product_name = "" then
                  (.ok (errResp 400 "Product name cannot be empty"), db, [])
                else
                  match pyFloat (jGet data "price" (jGet data "cost" (.num 0))) with
                  | .error _ =>
                      (.ok (errResp 400 "Price must be a valid number"), db, [])
                  | .ok sales_price =>
                      if sales_price < 0 then
                        (.ok (errResp 400 "Price must be a positive number"), db, [])
                      else
                        match getKV data "cost_price" with
                        | some cv =>
                            (match pyFloat cv with
                             | .error _ =>
                                 (.ok (errResp 400 "Cost price must be a valid number"), db, [])
                             | .ok cost_price =>
                                 if cost_price < 0 then
                                   (.ok (errResp 400 "Cost price must be a positive number"),
                                    db, [])
                                 else
                                   createProductTags product_name sales_price (some cost_price)
                                     data db)
                        | none =>
                            createProductTags product_name sales_price none data db

/-- Model of `handle_create_product` (`POST /products` with a create-shaped body). -/
def handle_create_product (cfg : Config) (ev : Event) (db : OdooDB) : HRes :=
  match authenticate_request cfg ev with
  | .error r => (.ok r, db, [])
  | .ok _ => createProductBody ev db

/-- The f-string message for an empty search result. -/
def noMatchMsg (search_term : JVal) : String :=
  let termStr := jstr search_term
  s!"No products found matching: {termStr}"

/-- Final 200 response of a non-empty inventory listing. -/
def listInventoryRespond (m : String) (search_term category_id : JVal)
    (limit offset : Int) (products : List Product) (total_count : Nat)
    (tag_details : List Tag) (db : OdooDB) (tr : List Call) : HRes :=
  let cnt := products.length
  let formatted := products.map (fun p => JVal.obj
    [("id", .num (p.pid : Rat)), ("name", .str p.name),
     ("price", .num p.list_price), ("cost_price", .num p.standard_price),
     ("currency", .obj
       [("id", match p.currency with | some c => .num (c.1 : Rat) | none => .null),
        ("name", match p.currency with | some c => .str c.2 | none => .str "")]),
     ("tags", .arr (p.product_tag_ids.filterMap (fun i =>
       (tag_details.find? (fun t => t.tid == i)).map tagToJ)))])
  (.ok ⟨200, corsJson, some (.obj
    [("success", .bool true),
     ("found", .bool (decide (0 < formatted.length))),
     ("data", .arr formatted),
     ("pagination", .obj
       [("total_count", .num (total_count : Rat)),
        ("limit", .num (limit : Rat)), ("offset", .num (offset : Rat)),
        ("has_more", .bool (decide (offset + limit < (total_count : Int))))]),
     ("filters_applied", .obj
       [("search_term", search_term), ("category_id", category_id),
        ("search_method", .str m)]),
     ("message", .str (if 0 < formatted.length then
        s!"Found {cnt} product(s)"
      else if jTruthy search_term then
        noMatchMsg search_term
      else "No products found"))])⟩,
   db, tr)

/-- The retrieval phase of `handle_list_inventory` (its `try` block):
domain construction (with `int(category_id)` able to raise), the
search / read / count RPCs, tag de-duplication and the response body. -/
def listInventoryCore (m : String) (search_term : JVal) (limit offset : Int)
    (category_id : JVal) (db : OdooDB) : HRes :=
  let base := [DomItem.cond "type" "=" (.str "product")]
  let d1 :=
    if jTruthy search_term then
      base ++ [DomItem.orOp, DomItem.cond "name" "ilike" search_term,
        DomItem.cond "default_code" "ilike" search_term]
    else base
  let domE : Except Unit (List DomItem) :=
    if jTruthy category_id then
      match pyInt category_id with
      | .error _ => .error ()
      | .ok c => .ok (d1 ++ [DomItem.cond "categ_id" "=" (.num (c : Rat))])
    else .ok d1
  match domE with
  | .error _ => (.error (), db, [])
  | .ok domain =>
    let fields := ["id", "name", "list_price", "standard_price", "currency_id",
      "product_tag_ids"]
    let kw : SearchKw := some (limit, offset, "name")
    let product_ids := productSearch db domain kw
    let tr0 := [Call.search "product.product" domain kw]
    if product_ids = [] then
      (.ok ⟨200, corsJson, some (.obj
        [("success", .bool true), ("found", .bool false), ("data", .arr []),
         ("total_count", .num 0),
         ("limit", .num (limit : Rat)), ("offset", .num (offset : Rat)),
         ("message", .str (if jTruthy search_term then
            noMatchMsg search_term else "No products found"))])⟩,
       db, tr0)
    else
      let products := productRead db product_ids
      let tr1 := tr0 ++ [Call.readRpc "product.product" product_ids fields]
      let total_count := productSearchCount db domain
      let tr2 := tr1 ++ [Call.searchCount "product.product" domain]
      let all_tag_ids := products.foldl
        (fun acc p => if p.product_tag_ids ≠ [] then acc ++ p.product_tag_ids else acc) []
      let unique_tag_ids := all_tag_ids.dedup
      if unique_tag_ids ≠ [] then
        listInventoryRespond m search_term category_id limit offset products
          total_count (tagRead db unique_tag_ids) db
          (tr2 ++ [Call.readRpc "product.tag" unique_tag_ids ["id", "name", "color"]])
      else
        listInventoryRespond m search_term category_id limit offset products
          total_count [] db tr2

/-- Body of `handle_list_inventory` after authentication: parameter extraction
(JSON body for POST, query string for GET), then the retrieval phase. -/
def listInventoryBody (ev : Event) (db : OdooDB) : HRes :=
  let m := ev.method.getD "GET"
  if m == "POST" then
    match ev.body with
    | none => (.ok (errResp 400 "Request body is required for POST search"), db, [])
    | some .malformed => (.ok (errResp 400 "Invalid JSON in request body"), db, [])
    | some (.obj search_data) =>
        let search_term := jGet search_data "product_name" (.str "")
        match pyInt (jGet search_data "limit" (.num 100)) with
        | .error _ => (.error (), db, [])
        | .ok limit =>
            match pyInt (jGet search_data "offset" (.num 0)) with
            | .error _ => (.error (), db, [])
            | .ok offset =>
                let category_id := jGet search_data "category_id" (.str "")
                catchWith "An unexpected server error occurred."
                  (listInventoryCore m search_term limit offset category_id db)
  else
    let qp := ev.queryStringParameters.getD []
    match pyInt (((qpGet qp "limit").map JVal.str).getD (.num 100)) with
    | .error _ => (.error (), db, [])
    | .ok limit =>
        match pyInt (((qpGet qp "offset").map JVal.str).getD (.num 0)) with
        | .error _ => (.error (), db, [])
        | .ok offset =>
            let search_term := JVal.str ((qpGet qp "search").getD "")
            let category_id := JVal.str ((qpGet qp "category_id").getD "")
            catchWith "An unexpected server error occurred."
              (listInventoryCore m search_term limit offset category_id db)

/-- Model of `handle_list_inventory` (`GET /`, `POST /`, `POST /search`). -/
def handle_list_inventory (cfg : Config) (ev : Event) (db : OdooDB) : HRes :=
  match authenticate_request cfg ev with
  | .error r => (.ok r, db, [])
  | .ok _ => listInventoryBody ev db

/-- The retrieval phase of `handle_list_tags` (its `try` block). -/
def listTagsCore (m : String) (search_term : JVal) (limit offset : Int)
    (db : OdooDB) : HRes :=
  let domain :=
    if jTruthy search_term then [DomItem.cond "name" "ilike" search_term] else []
  let kw : SearchKw := some (limit, offset, "name")
  let tag_ids := tagSearch db domain kw
  let tr0 := [Call.search "product.tag" domain kw]
  if tag_ids = [] then
    (.ok ⟨200, corsJson, some (.obj
      [("success", .bool true), ("data", .arr []),
       ("total_count", .num 0),
       ("limit", .num (limit : Rat)), ("offset", .num (offset : Rat))])⟩,
     db, tr0)
  else
    let tags := tagRead db tag_ids
    let tr1 := tr0 ++ [Call.readRpc "product.tag" tag_ids ["id", "name", "color"]]
    let total_count := tagSearchCount db domain
    let tr2 := tr1 ++ [Call.searchCount "product.tag" domain]
    let formatted := tags.map tagToJ
    (.ok ⟨200, corsJson, some (.obj
      [("success", .bool true),
       ("data", .arr formatted),
       ("pagination", .obj
         [("total_count", .num (total_count : Rat)),
          ("limit", .num (limit : Rat)), ("offset", .num (offset : Rat)),
          ("has_more", .bool (decide (offset + limit < (total_count : Int))))]),
       ("filters_applied", .obj
         [("search_term", search_term), ("search_method", .str m)])])⟩,
     db, tr2)

/-- Body of `handle_list_tags` after authentication. -/
def listTagsBody (ev : Event) (db : OdooDB) : HRes :=
  let m := ev.method.getD "GET"
  if m == "POST" then
    match ev.body with
    | none => (.ok (errResp 400 "Request body is required for POST search"), db, [])
    | some .malformed => (.ok (errResp 400 "Invalid JSON in request body"), db, [])
    | some (.obj search_data) =>
        let search_term := jGet search_data "tag_name" (jGet search_data "search" (.str ""))
        match pyInt (jGet search_data "limit" (.num 100)) with
        | .error _ => (.error (), db, [])
        | .ok limit =>
            match pyInt (jGet search_data "offset" (.num 0)) with
            | .error _ => (.error (), db, [])
            | .ok offset =>
                catchWith "Could not retrieve tags: unexpected error"
                  (listTagsCore m search_term limit offset db)
  else
    let qp := ev.queryStringParameters.getD []
    match pyInt (((qpGet qp "limit").map JVal.str).getD (.num 100)) with
    | .error _ => (.error (), db, [])
    | .ok limit =>
        match pyInt (((qpGet qp "offset").map JVal.str).getD (.num 0)) with
        | .error _ => (.error (), db, [])
        | .ok offset =>
            let search_term := JVal.str ((qpGet qp "search").getD "")
            catchWith "Could not retrieve tags: unexpected error"
              (listTagsCore m search_term limit offset db)

/-- Model of `handle_list_tags` (`GET /tags`, `POST /tags` with a search-shaped
body). -/
def handle_list_tags (cfg : Config) (ev : Event) (db : OdooDB) : HRes :=
  match authenticate_request cfg ev with
  | .error r => (.ok r, db, [])
  | .ok _ => listTagsBody ev db

/-- The five endpoint handlers the router can dispatch to. -/
inductive HandlerId where
  | inventory : HandlerId
  | listTags : HandlerId
  | createTag : HandlerId
  | createProduct : HandlerId
  | updateProduct : HandlerId
deriving DecidableEq

/-- Outcome of the routing decision tree: a direct response, or dispatch to
a handler. -/
inductive Routed where
  | direct (r : Response) : Routed
  | handler (h : HandlerId) : Routed

/-- Model of `[part for part in raw_path.split('/') if part]`: split on `'/'` and
drop the empty segments. -/
def splitSlashGo : List Char → List Char → List String
  | [], acc => if acc.isEmpty then [] else [String.mk acc.reverse]
  | c :: rest, acc =>
      if c == '/' then
        (if acc.isEmpty then splitSlashGo rest []
         else String.mk acc.reverse :: splitSlashGo rest [])
      else splitSlashGo rest (c :: acc)

/-- The routing decision tree of `lambda_handler` (path split, then
path/method/body-shape dispatch).  Reached only for the four supported
methods. -/
def route (ev : Event) : Routed :=
  let path_parts := splitSlashGo ev.rawPath.toList []
  let m := ev.method.getD ""
  match path_parts with
  | [] =>
      if m == "GET" || m == "POST" then .handler .inventory
      else .direct (errResp 405 "Method Not Allowed for inventory listing")
  | p0 :: _ =>
      if p0 == "tags" then
        if m == "GET" then .handler .listTags
        else if m == "POST" then
          match ev.body with
          | none => .direct (errResp 400 "Request body is required for POST requests")
          | some .malformed => .direct (errResp 400 "Invalid JSON in request body")
          | some (.obj data) =>
              if (getKV data "tag_name").isSome || (getKV data "search").isSome then
                .handler .listTags
              else if (getKV data "name").isSome then .handler .createTag
              else .direct (errResp 400
                "Invalid request body. For search: use \"tag_name\" or \"search\". For create: use \"name\"")
        else .direct (errResp 405 "Method Not Allowed for tags")
      else if p0 == "search" then
        if m == "POST" then .handler .inventory
        else .direct (errResp 405 "Search endpoint only supports POST method")
      else if p0 == "products" then
        if m == "POST" then
          match ev.body with
          | none => .direct (errResp 400 "Request body is required")
          | some .malformed => .direct (errResp 400 "Invalid JSON in request body")
          | some (.obj data) =>
              if (getKV data "product_name").isSome && (getKV data "price").isSome then
                .handler .updateProduct
              else if (getKV data "name").isSome &&
                  ((getKV data "cost").isSome || (getKV data "price").isSome) then
                .handler .createProduct
              else .direct (errResp 400
                "Invalid request body. For create: use \"name\" and \"price\" (or legacy \"cost\"). For update: use \"product_name\" and \"price\"")
        else if m == "PUT" then .handler .updateProduct
        else .direct (errResp 405 "Method Not Allowed for products")
      else .direct (errResp 404 "Endpoint not found")

/-- Dispatch to the selected handler. -/
def dispatch (h : HandlerId) (cfg : Config) (ev : Event) (db : OdooDB) : HRes :=
  match h with
  | .inventory => handle_list_inventory cfg ev db
  | .listTags => handle_list_tags cfg ev db
  | .createTag => handle_create_tag cfg ev db
  | .createProduct => handle_create_product cfg ev db
  | .updateProduct => handle_update_product cfg ev db

/-- The CORS preflight response (`OPTIONS`). -/
def respOptions : Response :=
  ⟨204,
   [("Access-Control-Allow-Origin", "*"),
    ("Access-Control-Allow-Methods", "GET, POST, PUT, DELETE, OPTIONS"),
    ("Access-Control-Allow-Headers", "Content-Type, x-client-id, x-client-secret")],
   none⟩

/-- Model of `lambda_handler`: CORS preflight, method gate, routing, dispatch, and
the routing-level `except Exception` producing the 500 response. -/
def lambda_handler (cfg : Config) (ev : Event) (db : OdooDB) :
    Response × OdooDB × List Call :=
  if ev.method = some "OPTIONS" then (respOptions, db, [])
  else if ¬ (ev.method = some "GET" ∨ ev.method = some "POST" ∨
      ev.method = some "PUT" ∨ ev.method = some "DELETE") then
    (errResp 405 "Method Not Allowed", db, [])
  else
    match route ev with
    | .direct r => (r, db, [])
    | .handler h =>
        match dispatch h cfg ev db with
        | (.ok r, db2, tr) => (r, db2, tr)
        | (.error _, db2, tr) => (resp500internal, db2, tr)

/-- Key lookup in a JSON-object response body (statement helper). -/
def respKV (r : Response) (k : String) : Option JVal :=
  match r.body with
  | some (.obj kvs) => getKV kvs k
  | _ => none

/-- The search domain `handle_list_inventory` builds when no category
filter is given: only stockable products, plus the name/default-code
`ilike` disjunction when a search term is present. -/
def invSearchDomain (t : String) : List DomItem :=
  if t = "" then [DomItem.cond "type" "=" (.str "product")]
  else [DomItem.cond "type" "=" (.str "product"), DomItem.orOp,
    DomItem.cond "name" "ilike" (.str t), DomItem.cond "default_code" "ilike" (.str t)]

/-- The inventory domain with neither search term nor category filter. -/
def invDomain : List DomItem := [DomItem.cond "type" "=" (.str "product")]

/-- The default kwargs of the inventory id-search (`limit=100`, `offset=0`,
`order='name'`). -/
def invKw : SearchKw := some (100, 0, "name")

/-- The field list of the inventory bulk read. -/
def invFields : List String :=
  ["id", "name", "list_price", "standard_price", "currency_id", "product_tag_ids"]

/-- The tag-name domain `handle_list_tags` builds. -/
def tagsDomain (t : String) : List DomItem :=
  if t = "" then [] else [DomItem.cond "name" "ilike" (.str t)]

/-- The de-duplicated union of the tag ids referenced by a page of
products. -/
def pageTagIds (db : OdooDB) (ids : List Nat) : List Nat :=
  ((productRead db ids).foldl
    (fun acc p => if p.product_tag_ids ≠ [] then acc ++ p.product_tag_ids else acc)
    []).dedup

/-! ### Concrete fixtures used in witnesses and counterexamples -/

/-- Configuration with no shared secret configured and a reachable ERP. -/
def cfgOpen : Config := ⟨none, none, none, true⟩

/-- Configuration with a shared client id / secret pair configured. -/
def cfgSecret : Config := ⟨some "id-1", some "sec-1", none, true⟩

/-- Empty ERP state. -/
def db0 : OdooDB := ⟨[], [], 1⟩

/-- A stockable product fixture. -/
def mkProd (i : Nat) (nm : String) (tags : List Nat) : Product :=
  ⟨i, nm, "", 10, 5, "product", 0, none, tags⟩

/-- One product named `Widget`. -/
def dbWidget : OdooDB := ⟨[mkProd 1 "Widget" []], [], 2⟩

/-- Two distinct products that share the name `A`. -/
def dbDupA : OdooDB := ⟨[mkProd 1 "A" [], mkProd 2 "A" []], [], 3⟩

/-- Two products that both reference tag 7. -/
def dbShared : OdooDB :=
  ⟨[mkProd 1 "A1" [7], mkProd 2 "A2" [7]], [⟨7, "Hot", .num 1⟩], 8⟩

/-- One tag named `Premium` (id 1). -/
def dbPrem : OdooDB := ⟨[], [⟨1, "Premium", .num 0⟩], 2⟩

/-- Event fixture: `GET /` with no parameters. -/
def listEv : Event := ⟨some "GET", "/", [], none, none⟩

/-- Event fixture: `PUT /products` with an update body. -/
def updateEv (n : String) (q : Rat) : Event :=
  ⟨some "PUT", "/products", [], none,
    some (.obj [("product_name", .str n), ("price", .num q)])⟩

/-- Event fixture: `POST /tags` with a create body. -/
def createTagEv (n : String) : Event :=
  ⟨some "POST", "/tags", [], none, some (.obj [("name", .str n)])⟩

/-- Event fixture: `POST /tags` with a create body carrying a color. -/
def createTagColorEv (n : String) (c : JVal) : Event :=
  ⟨some "POST", "/tags", [], none, some (.obj [("name", .str n), ("color", c)])⟩

/-- Event fixture: `POST /products` with a create body. -/
def createProductEv (n : String) (q : Rat) : Event :=
  ⟨some "POST", "/products", [], none,
    some (.obj [("name", .str n), ("price", .num q)])⟩

/-- Event fixture: `POST /products` with a create body carrying `tag_ids`. -/
def createProductTagsEv (n : String) (q : Rat) (xs : List JVal) : Event :=
  ⟨some "POST", "/products", [], none,
    some (.obj [("name", .str n), ("price", .num q), ("tag_ids", .arr xs)])⟩

/-- Event fixture: `POST /search` with explicit term / limit / offset. -/
def searchEv (t : String) (l o : Int) : Event :=
  ⟨some "POST", "/search", [], none,
    some (.obj [("product_name", .str t), ("limit", .num (l : Rat)),
      ("offset", .num (o : Rat))])⟩

/-- Event fixture: `POST /tags` with a tag-search body and explicit limit / offset. -/
def tagsSearchEv (t : String) (l o : Int) : Event :=
  ⟨some "POST", "/tags", [], none,
    some (.obj [("tag_name", .str t), ("limit", .num (l : Rat)),
      ("offset", .num (o : Rat))])⟩

/-- Event fixture: `GET /` with a raw query-string `limit`. -/
def limitEv (s : String) : Event :=
  ⟨some "GET", "/", [], some [("limit", s)], none⟩

/-- Event fixture: `POST /products` with a create body whose price is any JSON
value. -/
def createProductPriceEv (n : String) (pv : JVal) : Event :=
  ⟨some "POST", "/products", [], none,
    some (.obj [("name", .str n), ("price", pv)])⟩

/-! ### Helper lemmas -/

/-- Evaluating `int()` on a JSON integer gives that integer. -/
theorem pyInt_intCast (l : Int) : pyInt (.num (l : Rat)) = .ok l := by
  simp [pyInt, ratTrunc, Rat.num_intCast, Rat.den_intCast, Int.tdiv_one]

/-- When either configured credential is missing or empty, the
shared-secret check is skipped and authentication proceeds exactly as in
open mode. -/
theorem authenticate_request_open (cfg : Config) (ev : Event)
    (h : (envTruthy cfg.CLIENT_ID && envTruthy cfg.CLIENT_SECRET) = false) :
    authenticate_request cfg ev = odooAuthenticate cfg := by
  simp [authenticate_request, h]

/-- For a request the router dispatches to a handler, `lambda_handler` is
the dispatch wrapped in the routing-level exception handler. -/
theorem lambda_handler_routed (cfg : Config) (ev : Event) (db : OdooDB)
    (h : HandlerId)
    (hm : ev.method = some "GET" ∨ ev.method = some "POST" ∨
      ev.method = some "PUT" ∨ ev.method = some "DELETE")
    (hr : route ev = .handler h) :
    lambda_handler cfg ev db =
      match dispatch h cfg ev db with
      | (.ok r, db2, tr) => (r, db2, tr)
      | (.error _, db2, tr) => (resp500internal, db2, tr) := by
  have hopt : ¬ ev.method = some "OPTIONS" := by
    rcases hm with h' | h' | h' | h' <;> simp [h']
  unfold lambda_handler
  rw [if_neg hopt, if_neg (not_not_intro hm), hr]

/-- With both credentials configured, a request whose headers do not match
is rejected with the 401 response. -/
theorem authenticate_request_reject (cfg : Config) (ev : Event)
    (h1 : envTruthy cfg.CLIENT_ID = true) (h2 : envTruthy cfg.CLIENT_SECRET = true)
    (h3 : clientCheckFails cfg ev = true) :
    authenticate_request cfg ev = .error resp401 := by
  simp [authenticate_request, h1, h2, h3]

/-! ### C1 -/

/-- C1 counterexample: with the shared secret configured and no matching
headers, a `GET` to an unknown path is answered 404 by the router before
authentication ever runs, so not every wrongly-authenticated request
receives 401. -/
theorem C1_counterexample :
    clientCheckFails cfgSecret ⟨some "GET", "/nosuch", [], none, none⟩ = true ∧
    (lambda_handler cfgSecret ⟨some "GET", "/nosuch", [], none, none⟩ db0).1.statusCode = 404 := by
  exact ⟨rfl, rfl⟩

/-- C1 (amended): when a shared client id and secret are configured, every
inbound request that the router dispatches to one of the five endpoint
handlers (any supported method, any path and body shape that reach a
handler) and whose `x-client-id` / `x-client-secret` headers do not both
match receives the 401 response; requests the router answers directly
(CORS preflight, unsupported methods, unknown paths, unroutable bodies)
are excluded. -/
theorem C1_routed_unauthenticated_401 (cfg : Config) (ev : Event) (db : OdooDB)
    (h : HandlerId)
    (hm : ev.method = some "GET" ∨ ev.method = some "POST" ∨
      ev.method = some "PUT" ∨ ev.method = some "DELETE")
    (hr : route ev = .handler h)
    (h1 : envTruthy cfg.CLIENT_ID = true) (h2 : envTruthy cfg.CLIENT_SECRET = true)
    (h3 : clientCheckFails cfg ev = true) :
    (lambda_handler cfg ev db).1 = resp401 := by
  have hopt : ¬ ev.method = some "OPTIONS" := by
    rcases hm with h' | h' | h' | h' <;> simp [h']
  have hgate : ¬ ¬ (ev.method = some "GET" ∨ ev.method = some "POST" ∨
      ev.method = some "PUT" ∨ ev.method = some "DELETE") := not_not_intro hm
  have hauth := authenticate_request_reject cfg ev h1 h2 h3
  unfold lambda_handler
  rw [if_neg hopt, if_neg hgate, hr]
  cases h <;>
    simp [dispatch, handle_list_inventory, handle_list_tags, handle_create_tag,
      handle_create_product, handle_update_product, hauth]

/-- C1 witness: a `POST /search` with an empty JSON body and no credential
headers, against the configured secret pair, is dispatched to the
inventory handler and receives 401. -/
theorem C1_witness :
    (lambda_handler cfgSecret ⟨some "POST", "/search", [], none, some (.obj [])⟩ db0).1 =
      resp401 := by
  exact C1_routed_unauthenticated_401 cfgSecret _ db0 .inventory
    (Or.inr (Or.inl rfl)) rfl (by decide) (by decide) (by decide)

/-! ### C2 -/

/-- C2 counterexample: with `VERIFY_SSL` absent from the environment, the
ERP channels are opened with hostname checking off and `CERT_NONE` — the
opposite of the claimed verify-by-default. -/
theorem C2_counterexample :
    cfgOpen.VERIFY_SSL_raw = none ∧
    authenticate_request cfgOpen listEv = .ok ⟨false, .certNone⟩ ∧
    ssl_create_default_context = ⟨true, .certRequired⟩ := by
  exact ⟨rfl, rfl, rfl⟩

/-- C2 (amended): when the TLS-verification toggle is absent from the
environment, the ERP authentication channel is opened with certificate
verification disabled (`check_hostname = False`, `CERT_NONE`); enabling
verification requires the explicit opt-in `VERIFY_SSL=true`. -/
theorem C2_verify_ssl_default_off (cfg : Config) (ev : Event) (ctx : SslContext)
    (hraw : cfg.VERIFY_SSL_raw = none)
    (hok : authenticate_request cfg ev = .ok ctx) :
    ctx = ⟨false, .certNone⟩ := by
  unfold authenticate_request odooAuthenticate buildSslContext VERIFY_SSL at hok
  rw [hraw] at hok
  by_cases hb : (envTruthy cfg.CLIENT_ID && envTruthy cfg.CLIENT_SECRET &&
      clientCheckFails cfg ev) = true
  · rw [if_pos hb] at hok; cases hok
  · rw [if_neg hb] at hok
    by_cases ho : cfg.odooAuthOk = true
    · rw [if_pos ho] at hok
      simp at hok
      exact hok.symm
    · rw [if_neg ho] at hok; cases hok

/-! ### C9: the shared-secret check is skipped when not fully configured -/

/-- A handler result whose response (when a response was produced) is not
the 401 rejection. -/
def no401 (x : HRes) : Prop :=
  match x.1 with
  | .ok r => r.statusCode ≠ 401
  | .error _ => True

/-- Lemma: `catchWith` only introduces a 500 response. -/
theorem catchWith_no401 (msg : String) (x : HRes) (h : no401 x) :
    no401 (catchWith msg x) := by
  obtain ⟨a, db, tr⟩ := x
  cases a with
  | error e => simp +decide [catchWith, no401, errResp]
  | ok r => exact h

/-- The update success response is a 200. -/
theorem updateProductRespond_no401 (u : Bool) (c p : Product) (db : OdooDB)
    (pt : List JVal) (tr : List Call) : no401 (updateProductRespond u c p db pt tr) := by
  simp +decide [no401, updateProductRespond]

/-- The single-match update path never produces a 401 response. -/
theorem updateProductSingle_no401 (q : Rat) (u : Bool) (db : OdooDB) (pid : Nat)
    (tr : List Call) : no401 (updateProductSingle q u db pid tr) := by
  unfold updateProductSingle
  dsimp only
  repeat' split
  all_goals first
    | exact updateProductRespond_no401 _ _ _ _ _ _
    | simp +decide [no401]

/-- Match resolution of the update handler never produces a 401 response. -/
theorem updateProductResolve_no401 (n : String) (q : Rat) (u : Bool) (db : OdooDB)
    (ids : List Nat) (tr : List Call) : no401 (updateProductResolve n q u db ids tr) := by
  unfold updateProductResolve
  repeat' split
  all_goals first
    | exact updateProductSingle_no401 _ _ _ _ _
    | simp +decide [no401]

/-- The update core never produces a 401 response. -/
theorem updateProductCore_no401 (n : String) (q : Rat) (u : Bool) (db : OdooDB) :
    no401 (updateProductCore n q u db) := by
  unfold updateProductCore
  dsimp only
  split
  all_goals exact updateProductResolve_no401 _ _ _ _ _ _

/-- The update handler body never produces a 401 response. -/
theorem updateProductBody_no401 (ev : Event) (db : OdooDB) :
    no401 (updateProductBody ev db) := by
  unfold updateProductBody
  dsimp only
  repeat' split
  all_goals first
    | exact catchWith_no401 _ _ (updateProductCore_no401 _ _ _ _)
    | simp +decide [no401, errResp]

/-- The tag-creation core never produces a 401 response. -/
theorem createTagCore_no401 (n : String) (c : JVal) (db : OdooDB) :
    no401 (createTagCore n c db) := by
  unfold createTagCore
  dsimp only
  repeat' split
  all_goals simp +decide [no401, errResp]

/-- The tag-creation handler body never produces a 401 response. -/
theorem createTagBody_no401 (ev : Event) (db : OdooDB) :
    no401 (createTagBody ev db) := by
  unfold createTagBody
  dsimp only
  repeat' split
  all_goals first
    | exact catchWith_no401 _ _ (createTagCore_no401 _ _ _)
    | simp +decide [no401, errResp]

/-- The product-creation success response is a 201. -/
theorem createProductRespond_no401 (i : Nat) (p : Product) (db : OdooDB)
    (pt : List JVal) (tr : List Call) : no401 (createProductRespond i p db pt tr) := by
  simp +decide [no401, createProductRespond]

/-- The product-creation core never produces a 401 response. -/
theorem createProductCore_no401 (n : String) (q : Rat) (c : Option Rat)
    (xs : List JVal) (db : OdooDB) (tr : List Call) :
    no401 (createProductCore n q c xs db tr) := by
  unfold createProductCore
  dsimp only
  repeat' split
  all_goals first
    | exact createProductRespond_no401 _ _ _ _ _
    | simp +decide [no401, errResp]

/-- The tag-id validation step never produces a 401 response. -/
theorem createProductTags_no401 (n : String) (q : Rat) (c : Option Rat)
    (data : List (String × JVal)) (db : OdooDB) :
    no401 (createProductTags n q c data db) := by
  unfold createProductTags
  dsimp only
  repeat' split
  all_goals first
    | exact catchWith_no401 _ _ (createProductCore_no401 _ _ _ _ _ _)
    | simp +decide [no401, errResp]

/-- The product-creation handler body never produces a 401 response. -/
theorem createProductBody_no401 (ev : Event) (db : OdooDB) :
    no401 (createProductBody ev db) := by
  unfold createProductBody
  repeat' split
  all_goals first
    | exact createProductTags_no401 _ _ _ _ _
    | simp +decide [no401, errResp]

/-- The inventory success response is a 200. -/
theorem listInventoryRespond_no401 (m : String) (t c : JVal) (l o : Int)
    (ps : List Product) (tc : Nat) (td : List Tag) (db : OdooDB) (tr : List Call) :
    no401 (listInventoryRespond m t c l o ps tc td db tr) := by
  simp +decide [no401, listInventoryRespond]

/-- The inventory retrieval core never produces a 401 response. -/
theorem listInventoryCore_no401 (m : String) (t : JVal) (l o : Int) (c : JVal)
    (db : OdooDB) : no401 (listInventoryCore m t l o c db) := by
  unfold listInventoryCore
  dsimp only
  repeat' split
  all_goals first
    | exact listInventoryRespond_no401 _ _ _ _ _ _ _ _ _ _
    | simp +decide [no401, errResp]

/-- The inventory handler body never produces a 401 response. -/
theorem listInventoryBody_no401 (ev : Event) (db : OdooDB) :
    no401 (listInventoryBody ev db) := by
  unfold listInventoryBody
  dsimp only
  repeat' split
  all_goals first
    | exact catchWith_no401 _ _ (listInventoryCore_no401 _ _ _ _ _ _)
    | simp +decide [no401, errResp]

/-- The tag retrieval core never produces a 401 response. -/
theorem listTagsCore_no401 (m : String) (t : JVal) (l o : Int) (db : OdooDB) :
    no401 (listTagsCore m t l o db) := by
  unfold listTagsCore
  dsimp only
  repeat' split
  all_goals simp +decide [no401, errResp]

/-- The tags handler body never produces a 401 response. -/
theorem listTagsBody_no401 (ev : Event) (db : OdooDB) :
    no401 (listTagsBody ev db) := by
  unfold listTagsBody
  dsimp only
  repeat' split
  all_goals first
    | exact catchWith_no401 _ _ (listTagsCore_no401 _ _ _ _ _)
    | simp +decide [no401, errResp]

/-- Responses the router answers directly are never 401. -/
theorem route_direct_no401 (ev : Event) (r : Response) (h : route ev = .direct r) :
    r.statusCode ≠ 401 := by
  unfold route at h
  dsimp only at h
  repeat' split at h
  all_goals cases h <;> decide

/-- With the shared-secret check skipped, no handler dispatch can produce a
401 response. -/
theorem dispatch_no401 (h : HandlerId) (cfg : Config) (ev : Event) (db : OdooDB)
    (hc : (envTruthy cfg.CLIENT_ID && envTruthy cfg.CLIENT_SECRET) = false) :
    no401 (dispatch h cfg ev db) := by
  have hauth := authenticate_request_open cfg ev hc
  cases h with
  | inventory =>
      unfold dispatch handle_list_inventory
      rw [hauth]; unfold odooAuthenticate; dsimp only
      by_cases hOk : cfg.odooAuthOk = true
      · rw [if_pos hOk]
        exact listInventoryBody_no401 ev db
      · rw [if_neg hOk]
        simp +decide [no401, errResp]
  | listTags =>
      unfold dispatch handle_list_tags
      rw [hauth]; unfold odooAuthenticate; dsimp only
      by_cases hOk : cfg.odooAuthOk = true
      · rw [if_pos hOk]
        exact listTagsBody_no401 ev db
      · rw [if_neg hOk]
        simp +decide [no401, errResp]
  | createTag =>
      unfold dispatch handle_create_tag
      rw [hauth]; unfold odooAuthenticate; dsimp only
      by_cases hOk : cfg.odooAuthOk = true
      · rw [if_pos hOk]
        exact createTagBody_no401 ev db
      · rw [if_neg hOk]
        simp +decide [no401, errResp]
  | createProduct =>
      unfold dispatch handle_create_product
      rw [hauth]; unfold odooAuthenticate; dsimp only
      by_cases hOk : cfg.odooAuthOk = true
      · rw [if_pos hOk]
        exact createProductBody_no401 ev db
      · rw [if_neg hOk]
        simp +decide [no401, errResp]
  | updateProduct =>
      unfold dispatch handle_update_product
      rw [hauth]; unfold odooAuthenticate; dsimp only
      by_cases hOk : cfg.odooAuthOk = true
      · rw [if_pos hOk]
        exact updateProductBody_no401 ev db
      · rw [if_neg hOk]
        simp +decide [no401, errResp]

/-- C9: the shared-secret header check runs only when both the client id
and the client secret are configured and non-empty: otherwise it is
skipped entirely (`authenticate_request` behaves exactly as open-mode ERP
authentication) and no request, whatever its path, method, headers or
body, is answered 401. -/
theorem C9_auth_skipped_when_unconfigured (cfg : Config)
    (hc : (envTruthy cfg.CLIENT_ID && envTruthy cfg.CLIENT_SECRET) = false) :
    (∀ ev, authenticate_request cfg ev = odooAuthenticate cfg) ∧
    (∀ ev db, (lambda_handler cfg ev db).1.statusCode ≠ 401) := by
  refine ⟨fun ev => authenticate_request_open cfg ev hc, fun ev db => ?_⟩
  unfold lambda_handler
  split
  · simp +decide [respOptions]
  · split
    · simp +decide [errResp]
    · split
      · next r heq => exact route_direct_no401 ev r heq
      · next h heq =>
          split
          · next r db2 tr hd =>
              have hno := dispatch_no401 h cfg ev db hc
              rw [hd] at hno
              simpa [no401] using hno
          · next e db2 tr hd => simp +decide [resp500internal, errResp]

/-- C9 witness: with a client id configured but no secret, a request with
no credential headers is served through open-mode authentication, not
rejected with 401. -/
theorem C9_witness :
    authenticate_request ⟨some "id-1", none, none, true⟩ listEv =
      odooAuthenticate ⟨some "id-1", none, none, true⟩ ∧
    (lambda_handler ⟨some "id-1", none, none, true⟩ listEv db0).1.statusCode ≠ 401 := by
  exact ⟨(C9_auth_skipped_when_unconfigured _ (by decide)).1 listEv,
    (C9_auth_skipped_when_unconfigured _ (by decide)).2 listEv db0⟩

/-! ### C5 -/

/-- C5 counterexample: a non-numeric `limit` ("abc") does not produce a
field-specific 400: the `ValueError` from `int()` escapes to the routing
`except` and the response is the generic 500. -/
theorem C5_counterexample :
    pyIntStr "abc" = none ∧
    (lambda_handler cfgOpen (limitEv "abc") db0).1 = resp500internal := by
  exact ⟨rfl, rfl⟩

/-- C5 (amended): price fields are validated with field-specific 400
messages, but non-numeric `limit`/`offset` raise an uncaught conversion
error surfaced as the generic HTTP 500, and a non-numeric tag `color` is
not validated at all (creation proceeds and forwards the raw value). -/
theorem C5_numeric_validation (cfg : Config) (ctx : SslContext) (db : OdooDB) :
    (∀ s, authenticate_request cfg (limitEv s) = .ok ctx →
      pyIntStr s = none →
      (lambda_handler cfg (limitEv s) db).1 = resp500internal) ∧
    (∀ n s, authenticate_request cfg (createProductPriceEv n (.str s)) = .ok ctx →
      trimStr n ≠ "" → pyFloatStr s = none →
      (lambda_handler cfg (createProductPriceEv n (.str s)) db).1 =
        errResp 400 "Price must be a valid number") ∧
    (∀ n c, authenticate_request cfg (createTagColorEv n (.str c)) = .ok ctx →
      trimStr n ≠ "" →
      tagSearch db [DomItem.cond "name" "=" (.str (trimStr n))] none = [] →
      (lambda_handler cfg (createTagColorEv n (.str c)) db).1.statusCode = 201 ∧
      (lambda_handler cfg (createTagColorEv n (.str c)) db).2.2 =
        [Call.search "product.tag" [DomItem.cond "name" "=" (.str (trimStr n))] none,
         Call.createTagRpc (trimStr n) (.str c)]) := by
  refine ⟨?_, ?_, ?_⟩
  · intro s hauth hs
    rw [lambda_handler_routed cfg (limitEv s) db .inventory (Or.inl rfl) rfl]
    unfold dispatch handle_list_inventory
    rw [hauth]
    simp [listInventoryBody, limitEv, qpGet, pyInt, hs]
  · intro n s hauth hn hs
    rw [lambda_handler_routed cfg (createProductPriceEv n (.str s)) db .createProduct (Or.inr (Or.inl rfl)) rfl]
    unfold dispatch handle_create_product
    rw [hauth]
    simp [createProductBody, createProductPriceEv, getKV, jGet, pyStrStrip,
      pyFloat, hs, hn]
  · intro n c hauth hn hnew
    rw [lambda_handler_routed cfg (createTagColorEv n (.str c)) db .createTag (Or.inr (Or.inl rfl)) rfl]
    unfold dispatch handle_create_tag
    rw [hauth]
    simp [createTagBody, createTagColorEv, getKV, jGet, pyStrStrip, hn,
      catchWith, createTagCore, hnew, tagCreate]

/-- C5 witness: the three amended behaviours at concrete inputs. -/
theorem C5_witness :
    (lambda_handler cfgOpen (limitEv "abc") db0).1 = resp500internal ∧
    (lambda_handler cfgOpen (createProductPriceEv "New" (.str "abc")) db0).1 =
      errResp 400 "Price must be a valid number" ∧
    (lambda_handler cfgOpen (createTagColorEv "Fresh" (.str "red")) dbPrem).1.statusCode =
      201 := by
  refine ⟨?_, ?_, ?_⟩
  · exact (C5_numeric_validation cfgOpen ⟨false, .certNone⟩ db0).1 "abc" rfl rfl
  · exact (C5_numeric_validation cfgOpen ⟨false, .certNone⟩ db0).2.1 "New" "abc" rfl
      (by decide) rfl
  · exact ((C5_numeric_validation cfgOpen ⟨false, .certNone⟩ dbPrem).2.2 "Fresh" "red" rfl
      (by decide) rfl).1

/-! ### C4 -/

/-- C4: a create-tag or create-product request whose trimmed name exactly
(case-sensitively) matches an existing record of that model is answered
409 Conflict, the ERP state is unchanged, and the only RPC issued is the
duplicate-name search (no `create`). -/
theorem C4_create_conflict_409 (cfg : Config) (ctx : SslContext) (db : OdooDB) :
    (∀ n, authenticate_request cfg (createTagEv n) = .ok ctx →
      trimStr n ≠ "" →
      tagSearch db [DomItem.cond "name" "=" (.str (trimStr n))] none ≠ [] →
      (lambda_handler cfg (createTagEv n) db).1.statusCode = 409 ∧
      (lambda_handler cfg (createTagEv n) db).2.1 = db ∧
      (lambda_handler cfg (createTagEv n) db).2.2 =
        [Call.search "product.tag" [DomItem.cond "name" "=" (.str (trimStr n))] none]) ∧
    (∀ n q, authenticate_request cfg (createProductEv n q) = .ok ctx →
      trimStr n ≠ "" → 0 ≤ q →
      productSearch db [DomItem.cond "name" "=" (.str (trimStr n))] none ≠ [] →
      (lambda_handler cfg (createProductEv n q) db).1.statusCode = 409 ∧
      (lambda_handler cfg (createProductEv n q) db).2.1 = db ∧
      (lambda_handler cfg (createProductEv n q) db).2.2 =
        [Call.search "product.product" [DomItem.cond "name" "=" (.str (trimStr n))] none]) := by
  constructor
  · intro n hauth hn hex
    rw [lambda_handler_routed cfg (createTagEv n) db .createTag (Or.inr (Or.inl rfl)) rfl]
    unfold dispatch handle_create_tag
    rw [hauth]
    simp [createTagBody, createTagEv, getKV, jGet, pyStrStrip, hn, catchWith,
      createTagCore, hex, errResp]
  · intro n q hauth hn hq hex
    have hq' : ¬ q < 0 := not_lt.mpr hq
    rw [lambda_handler_routed cfg (createProductEv n q) db .createProduct
      (Or.inr (Or.inl rfl)) rfl]
    unfold dispatch handle_create_product
    rw [hauth]
    simp [createProductBody, createProductEv, getKV, jGet, pyStrStrip, pyFloat,
      hn, hq', createProductTags, jTruthy, catchWith, createProductCore, hex, errResp]

/-- C4 witness: recreating the existing tag `Premium` and the existing
product `Widget` both yield 409 with no state change and only the search
RPC. -/
theorem C4_witness :
    ((lambda_handler cfgOpen (createTagEv "Premium") dbPrem).1.statusCode = 409 ∧
      (lambda_handler cfgOpen (createTagEv "Premium") dbPrem).2.1 = dbPrem ∧
      (lambda_handler cfgOpen (createTagEv "Premium") dbPrem).2.2 =
        [Call.search "product.tag" [DomItem.cond "name" "=" (.str "Premium")] none]) ∧
    ((lambda_handler cfgOpen (createProductEv "Widget" 3) dbWidget).1.statusCode = 409 ∧
      (lambda_handler cfgOpen (createProductEv "Widget" 3) dbWidget).2.1 = dbWidget ∧
      (lambda_handler cfgOpen (createProductEv "Widget" 3) dbWidget).2.2 =
        [Call.search "product.product" [DomItem.cond "name" "=" (.str "Widget")] none]) := by
  constructor
  · exact (C4_create_conflict_409 cfgOpen ⟨false, .certNone⟩ dbPrem).1 "Premium" rfl
      (by decide) (by decide)
  · exact (C4_create_conflict_409 cfgOpen ⟨false, .certNone⟩ dbWidget).2 "Widget" 3 rfl
      (by decide) (by decide) (by decide)

/-! ### C3 -/

/-- C3: when the update-by-name search (exact name, or the `ilike`
fallback when the exact search is empty) resolves to more than one
product, the response is 400, its body lists every candidate as
`{id, name}` under `matches`, the ERP state is unchanged and no `write`
RPC is issued. -/
theorem C3_update_ambiguous (cfg : Config) (ctx : SslContext) (db : OdooDB)
    (n : String) (q : Rat) (a b : Nat) (rest : List Nat)
    (hauth : authenticate_request cfg (updateEv n q) = .ok ctx)
    (hn : trimStr n ≠ "") (hq : 0 ≤ q)
    (hid : (if productSearch db [DomItem.cond "name" "=" (.str (trimStr n))] none = []
      then productSearch db [DomItem.cond "name" "ilike" (.str (trimStr n))] none
      else productSearch db [DomItem.cond "name" "=" (.str (trimStr n))] none) =
        a :: b :: rest) :
    (lambda_handler cfg (updateEv n q) db).1.statusCode = 400 ∧
    respKV (lambda_handler cfg (updateEv n q) db).1 "matches" =
      some (.arr ((productRead db (a :: b :: rest)).map (fun p =>
        .obj [("id", .num (p.pid : Rat)), ("name", .str p.name)]))) ∧
    (lambda_handler cfg (updateEv n q) db).2.1 = db ∧
    (lambda_handler cfg (updateEv n q) db).2.2.filter isWrite = [] := by
  rw [lambda_handler_routed cfg (updateEv n q) db .updateProduct
    (Or.inr (Or.inr (Or.inl rfl))) rfl]
  unfold dispatch handle_update_product
  rw [hauth]
  have hq' : ¬ q < 0 := not_lt.mpr hq
  by_cases hE : productSearch db [DomItem.cond "name" "=" (.str (trimStr n))] none = []
  · rw [if_pos hE] at hid
    simp [updateProductBody, updateEv, getKV, jGet, pyStrStrip, pyFloat, hn, hq',
      catchWith, updateProductCore, updateProductResolve, hE, hid, respKV, isWrite]
  · rw [if_neg hE] at hid
    simp [updateProductBody, updateEv, getKV, jGet, pyStrStrip, pyFloat, hn, hq',
      catchWith, updateProductCore, updateProductResolve, hE, hid, respKV, isWrite]

/-- C3 witness: updating by the shared name `A` when two products bear it
gives 400, both candidates in `matches`, unchanged state, no write. -/
theorem C3_witness :
    (lambda_handler cfgOpen (updateEv "A" 7) dbDupA).1.statusCode = 400 ∧
    respKV (lambda_handler cfgOpen (updateEv "A" 7) dbDupA).1 "matches" =
      some (.arr ((productRead dbDupA [1, 2]).map (fun p =>
        .obj [("id", .num (p.pid : Rat)), ("name", .str p.name)]))) ∧
    (lambda_handler cfgOpen (updateEv "A" 7) dbDupA).2.1 = dbDupA ∧
    (lambda_handler cfgOpen (updateEv "A" 7) dbDupA).2.2.filter isWrite = [] := by
  exact C3_update_ambiguous cfgOpen ⟨false, .certNone⟩ dbDupA "A" 7 1 2 [] rfl
    (by decide) (by decide) (by decide)

/-! ### C7 -/

/-- A freshly appended record is found by a pid search, so the read-back
of a created product is never empty. -/
theorem find?_append_self (l : List Product) (p : Product) :
    ∃ c, (l ++ [p]).find? (fun x => x.pid == p.pid) = some c := by
  have h : ((l ++ [p]).find? (fun x => x.pid == p.pid)).isSome := by
    rw [List.find?_isSome]
    exact ⟨p, by simp, by simp⟩
  exact Option.isSome_iff_exists.mp h

/-- Reading back a record just appended with the allocated id yields a
non-empty result. -/
theorem productRead_create (db : OdooDB) (p : Product) (hp : p.pid = db.nextId) :
    ∃ c rest, productRead
      { db with products := db.products ++ [p], nextId := db.nextId + 1 }
      [db.nextId] = c :: rest := by
  obtain ⟨c, hc⟩ := find?_append_self db.products p
  rw [hp] at hc
  refine ⟨c, [], ?_⟩
  unfold productRead
  simp only [List.filterMap_cons, List.filterMap_nil]
  rw [hc]

/-- When the product name is new, the creation core returns a 201
response. -/
theorem createProductCore_201 (n' : String) (q : Rat) (cp : Option Rat)
    (xs : List JVal) (db : OdooDB) (tr : List Call)
    (hnew : productSearch db [DomItem.cond "name" "=" (.str n')] none = []) :
    ∃ r db2 tr2, createProductCore n' q cp xs db tr = (.ok r, db2, tr2) ∧
      r.statusCode = 201 := by
  unfold createProductCore
  dsimp only
  rw [if_neg (by simp [hnew])]
  unfold productCreate
  dsimp only
  obtain ⟨c0, rest, hr⟩ := productRead_create db
    ⟨db.nextId, n', "", q, cp.getD 0, "product", 0, none,
      if xs.isEmpty then [] else xs.filterMap jvalNat⟩ rfl
  rw [hr]
  dsimp only
  split
  · exact ⟨_, _, _, rfl, rfl⟩
  · exact ⟨_, _, _, rfl, rfl⟩

/-- C7 counterexample: with tag 1 the only tag, creating a product with
`tag_ids = [1, 1]` is rejected 400 ("One or more tag IDs do not exist")
although every listed id resolves to an existing tag: the count check
compares the number of distinct existing ids with the list length. -/
theorem C7_counterexample :
    dbPrem.tags.map (fun t => t.tid) = [1] ∧
    (lambda_handler cfgOpen (createProductTagsEv "New" 3 [.num 1, .num 1]) dbPrem).1 =
      errResp 400 "One or more tag IDs do not exist" := by
  exact ⟨rfl, rfl⟩

/-- C7 (amended): a present truthy `tag_ids` must be an array; the request
is rejected 400 (without identifying the offender) exactly when the number
of distinct existing ids found by the tag search differs from the list
length — so a list in which every id resolves passes only when it has no
duplicates, and when the counts agree (and the product name is new)
creation proceeds with 201. -/
theorem C7_tag_ids_validation (cfg : Config) (ctx : SslContext) (db : OdooDB)
    (n : String) (q : Rat) (xs : List JVal)
    (hauth : authenticate_request cfg (createProductTagsEv n q xs) = .ok ctx)
    (hn : trimStr n ≠ "") (hq : 0 ≤ q) (hxs : xs ≠ []) :
    ((tagSearch db [DomItem.cond "id" "in" (.arr xs)] none).length ≠ xs.length →
      (lambda_handler cfg (createProductTagsEv n q xs) db).1 =
        errResp 400 "One or more tag IDs do not exist" ∧
      (lambda_handler cfg (createProductTagsEv n q xs) db).2.1 = db ∧
      (lambda_handler cfg (createProductTagsEv n q xs) db).2.2 =
        [Call.search "product.tag" [DomItem.cond "id" "in" (.arr xs)] none]) ∧
    ((tagSearch db [DomItem.cond "id" "in" (.arr xs)] none).length = xs.length →
      productSearch db [DomItem.cond "name" "=" (.str (trimStr n))] none = [] →
      (lambda_handler cfg (createProductTagsEv n q xs) db).1.statusCode = 201) := by
  have hq' : ¬ q < 0 := not_lt.mpr hq
  have hxe : xs.isEmpty = false := by
    cases xs with
    | nil => exact absurd rfl hxs
    | cons a l => rfl
  constructor
  · intro hlen
    rw [lambda_handler_routed cfg (createProductTagsEv n q xs) db .createProduct
      (Or.inr (Or.inl rfl)) rfl]
    unfold dispatch handle_create_product
    rw [hauth]
    simp [createProductBody, createProductTagsEv, getKV, jGet, pyStrStrip, pyFloat,
      hn, hq', createProductTags, jTruthy, hxe, hlen, errResp]
  · intro hlen hnew
    rw [lambda_handler_routed cfg (createProductTagsEv n q xs) db .createProduct
      (Or.inr (Or.inl rfl)) rfl]
    unfold dispatch handle_create_product
    rw [hauth]
    obtain ⟨r, db2, tr2, hcore, hstat⟩ := createProductCore_201 (trimStr n) q none xs db
      [Call.search "product.tag" [DomItem.cond "id" "in" (.arr xs)] none] hnew
    simp [createProductBody, createProductTagsEv, getKV, jGet, pyStrStrip, pyFloat,
      hn, hq', createProductTags, jTruthy, hxe, hlen, hcore, catchWith, hstat]

/-- C7 witness: duplicate ids `[1, 1]` are rejected while the distinct
singleton `[1]` passes and creates the product. -/
theorem C7_witness :
    ((lambda_handler cfgOpen (createProductTagsEv "New" 3 [.num 1, .num 1]) dbPrem).1 =
        errResp 400 "One or more tag IDs do not exist" ∧
      (lambda_handler cfgOpen (createProductTagsEv "New" 3 [.num 1, .num 1]) dbPrem).2.1 =
        dbPrem ∧
      (lambda_handler cfgOpen (createProductTagsEv "New" 3 [.num 1, .num 1]) dbPrem).2.2 =
        [Call.search "product.tag"
          [DomItem.cond "id" "in" (.arr [.num 1, .num 1])] none]) ∧
    (lambda_handler cfgOpen (createProductTagsEv "New" 3 [.num 1]) dbPrem).1.statusCode =
      201 := by
  constructor
  · exact (C7_tag_ids_validation cfgOpen ⟨false, .certNone⟩ dbPrem "New" 3
      [.num 1, .num 1] rfl (by decide) (by decide) (List.cons_ne_nil _ _)).1 (by decide)
  · exact (C7_tag_ids_validation cfgOpen ⟨false, .certNone⟩ dbPrem "New" 3
      [.num 1] rfl (by decide) (by decide) (List.cons_ne_nil _ _)).2 (by decide) (by decide)

/-! ### C6 -/

/-- C6 counterexample: on a successful listing the count RPC is issued
LAST, after the id-search and the bulk read — not first as claimed
(`map isSearchCount` over the trace is `[false, false, true]`). -/
theorem C6_counterexample :
    (lambda_handler cfgOpen listEv dbWidget).2.2 =
      [Call.search "product.product" invDomain invKw,
       Call.readRpc "product.product" [1] invFields,
       Call.searchCount "product.product" invDomain] ∧
    (lambda_handler cfgOpen listEv dbWidget).2.2.map isSearchCount =
      [false, false, true] := by
  exact ⟨rfl, rfl⟩

/-- C6 (amended): every successful list-inventory request issues its RPCs
in the order: id-search (with limit, offset, name ordering), then bulk
read of the fields id, name, sale price, cost price, currency reference
and tag-id list, then the count of records matching the domain (count
last, not first), followed by the tag-detail read when the page references
tags. -/
theorem C6_rpc_order (cfg : Config) (ctx : SslContext) (db : OdooDB)
    (hauth : authenticate_request cfg listEv = .ok ctx)
    (hne : productSearch db invDomain invKw ≠ []) :
    (lambda_handler cfg listEv db).2.2 =
      Call.search "product.product" invDomain invKw ::
      Call.readRpc "product.product" (productSearch db invDomain invKw) invFields ::
      Call.searchCount "product.product" invDomain ::
      (if pageTagIds db (productSearch db invDomain invKw) ≠ [] then
        [Call.readRpc "product.tag" (pageTagIds db (productSearch db invDomain invKw))
          ["id", "name", "color"]]
      else []) := by
  rw [lambda_handler_routed cfg listEv db .inventory (Or.inl rfl) rfl]
  unfold dispatch handle_list_inventory
  rw [hauth]
  have hne' : ¬ productSearch db
      [DomItem.cond "type" "=" (JVal.str "product")] (some (100, 0, "name")) = [] := hne
  by_cases hfold : List.foldl
      (fun acc p => if p.product_tag_ids = [] then acc else acc ++ p.product_tag_ids) []
      (productRead db (productSearch db
        [DomItem.cond "type" "=" (JVal.str "product")] (some (100, 0, "name")))) = []
  · simp [listInventoryBody, listEv, qpGet, pyInt, ratTrunc, catchWith,
      listInventoryCore, jTruthy, hne', hfold, pageTagIds, List.dedup_eq_nil,
      invDomain, invKw, invFields, listInventoryRespond]
  · simp [listInventoryBody, listEv, qpGet, pyInt, ratTrunc, catchWith,
      listInventoryCore, jTruthy, hne', hfold, pageTagIds, List.dedup_eq_nil,
      invDomain, invKw, invFields, listInventoryRespond]

/-- C6 witness: the amended trace shape at a concrete one-product state. -/
theorem C6_witness :
    (lambda_handler cfgOpen listEv dbWidget).2.2 =
      Call.search "product.product" invDomain invKw ::
      Call.readRpc "product.product" (productSearch dbWidget invDomain invKw) invFields ::
      Call.searchCount "product.product" invDomain ::
      (if pageTagIds dbWidget (productSearch dbWidget invDomain invKw) ≠ [] then
        [Call.readRpc "product.tag"
          (pageTagIds dbWidget (productSearch dbWidget invDomain invKw))
          ["id", "name", "color"]]
      else []) := by
  exact C6_rpc_order cfgOpen ⟨false, .certNone⟩ dbWidget rfl (by decide)

/-! ### C8 -/

/-- C8: in the list-inventory handler the tag ids referenced by the page
are read through at most one `product.tag` read RPC, whose id list is the
de-duplicated union of the page's tag references (and hence has no
duplicates), even when several products share a tag. -/
theorem C8_tag_read_dedup (cfg : Config) (ctx : SslContext) (db : OdooDB)
    (hauth : authenticate_request cfg listEv = .ok ctx) :
    (lambda_handler cfg listEv db).2.2.filter isTagRead =
      (if pageTagIds db (productSearch db invDomain invKw) ≠ [] then
        [Call.readRpc "product.tag" (pageTagIds db (productSearch db invDomain invKw))
          ["id", "name", "color"]]
      else []) ∧
    (pageTagIds db (productSearch db invDomain invKw)).Nodup := by
  refine ⟨?_, List.nodup_dedup _⟩
  rw [lambda_handler_routed cfg listEv db .inventory (Or.inl rfl) rfl]
  unfold dispatch handle_list_inventory
  rw [hauth]
  by_cases hne : productSearch db invDomain invKw = []
  · have hne' : productSearch db
        [DomItem.cond "type" "=" (JVal.str "product")] (some (100, 0, "name")) = [] := hne
    have hpt : pageTagIds db (productSearch db invDomain invKw) = [] := by
      rw [hne]
      simp [pageTagIds, productRead]
    simp [listInventoryBody, listEv, qpGet, pyInt, ratTrunc, catchWith,
      listInventoryCore, jTruthy, hne', hpt, isTagRead]
  · have hne' : ¬ productSearch db
        [DomItem.cond "type" "=" (JVal.str "product")] (some (100, 0, "name")) = [] := hne
    by_cases hfold : List.foldl
        (fun acc p => if p.product_tag_ids = [] then acc else acc ++ p.product_tag_ids) []
        (productRead db (productSearch db
          [DomItem.cond "type" "=" (JVal.str "product")] (some (100, 0, "name")))) = []
    · simp [listInventoryBody, listEv, qpGet, pyInt, ratTrunc, catchWith,
        listInventoryCore, jTruthy, hne', hfold, pageTagIds, List.dedup_eq_nil,
        invDomain, invKw, listInventoryRespond, isTagRead]
    · simp [listInventoryBody, listEv, qpGet, pyInt, ratTrunc, catchWith,
        listInventoryCore, jTruthy, hne', hfold, pageTagIds, List.dedup_eq_nil,
        invDomain, invKw, listInventoryRespond, isTagRead]

/-- C8 witness: two products sharing tag 7 produce a single tag read with
the deduplicated id list `[7]`. -/
theorem C8_witness :
    (lambda_handler cfgOpen listEv dbShared).2.2.filter isTagRead =
      (if pageTagIds dbShared (productSearch dbShared invDomain invKw) ≠ [] then
        [Call.readRpc "product.tag"
          (pageTagIds dbShared (productSearch dbShared invDomain invKw))
          ["id", "name", "color"]]
      else []) ∧
    (pageTagIds dbShared (productSearch dbShared invDomain invKw)).Nodup := by
  exact C8_tag_read_dedup cfgOpen ⟨false, .certNone⟩ dbShared rfl

/-! ### C10 -/

/-- C10: when the id-search of a list-inventory or list-tags request
returns no ids (e.g. the offset lies past the last matching record), the
response is 200 with `total_count` fixed at 0 and `limit`/`offset` at the
top level, no `pagination` object, and the only RPC issued is the
id-search (no count, no read). -/
theorem C10_empty_result (cfg : Config) (ctx : SslContext) (db : OdooDB)
    (t : String) (l o : Int)
    (hauthA : authenticate_request cfg (searchEv t l o) = .ok ctx)
    (hauthB : authenticate_request cfg (tagsSearchEv t l o) = .ok ctx) :
    (productSearch db (invSearchDomain t) (some (l, o, "name")) = [] →
      (lambda_handler cfg (searchEv t l o) db).1.statusCode = 200 ∧
      respKV (lambda_handler cfg (searchEv t l o) db).1 "total_count" = some (.num 0) ∧
      respKV (lambda_handler cfg (searchEv t l o) db).1 "limit" = some (.num (l : Rat)) ∧
      respKV (lambda_handler cfg (searchEv t l o) db).1 "offset" = some (.num (o : Rat)) ∧
      respKV (lambda_handler cfg (searchEv t l o) db).1 "pagination" = none ∧
      (lambda_handler cfg (searchEv t l o) db).2.2 =
        [Call.search "product.product" (invSearchDomain t) (some (l, o, "name"))]) ∧
    (tagSearch db (tagsDomain t) (some (l, o, "name")) = [] →
      (lambda_handler cfg (tagsSearchEv t l o) db).1.statusCode = 200 ∧
      respKV (lambda_handler cfg (tagsSearchEv t l o) db).1 "total_count" = some (.num 0) ∧
      respKV (lambda_handler cfg (tagsSearchEv t l o) db).1 "limit" = some (.num (l : Rat)) ∧
      respKV (lambda_handler cfg (tagsSearchEv t l o) db).1 "offset" = some (.num (o : Rat)) ∧
      respKV (lambda_handler cfg (tagsSearchEv t l o) db).1 "pagination" = none ∧
      (lambda_handler cfg (tagsSearchEv t l o) db).2.2 =
        [Call.search "product.tag" (tagsDomain t) (some (l, o, "name"))]) := by
  constructor
  · intro hid
    rw [lambda_handler_routed cfg (searchEv t l o) db .inventory
      (Or.inr (Or.inl rfl)) rfl]
    unfold dispatch handle_list_inventory
    rw [hauthA]
    by_cases ht : t = ""
    · have hid' : productSearch db
          [DomItem.cond "type" "=" (JVal.str "product")] (some (l, o, "name")) = [] := by
        simpa [invSearchDomain, ht] using hid
      simp [listInventoryBody, searchEv, getKV, jGet, pyInt_intCast, catchWith,
        listInventoryCore, jTruthy, ht, hid', respKV, invSearchDomain]
    · have hid' : productSearch db
          [DomItem.cond "type" "=" (JVal.str "product"), DomItem.orOp,
           DomItem.cond "name" "ilike" (JVal.str t),
           DomItem.cond "default_code" "ilike" (JVal.str t)] (some (l, o, "name")) = [] := by
        simpa [invSearchDomain, ht] using hid
      simp [listInventoryBody, searchEv, getKV, jGet, pyInt_intCast, catchWith,
        listInventoryCore, jTruthy, ht, hid', respKV, invSearchDomain]
  · intro hid
    rw [lambda_handler_routed cfg (tagsSearchEv t l o) db .listTags
      (Or.inr (Or.inl rfl)) rfl]
    unfold dispatch handle_list_tags
    rw [hauthB]
    by_cases ht : t = ""
    · have hid' : tagSearch db [] (some (l, o, "name")) = [] := by
        simpa [tagsDomain, ht] using hid
      simp [listTagsBody, tagsSearchEv, getKV, jGet, pyInt_intCast, catchWith,
        listTagsCore, jTruthy, ht, hid', respKV, tagsDomain]
    · have hid' : tagSearch db [DomItem.cond "name" "ilike" (JVal.str t)]
          (some (l, o, "name")) = [] := by
        simpa [tagsDomain, ht] using hid
      simp [listTagsBody, tagsSearchEv, getKV, jGet, pyInt_intCast, catchWith,
        listTagsCore, jTruthy, ht, hid', respKV, tagsDomain]

/-- C10 witness: one product, offset 5 — the id-search is empty, the
response carries `total_count = 0`, `limit`/`offset` at top level and no
`pagination`, and no further RPC is issued; same for tags. -/
theorem C10_witness :
    ((lambda_handler cfgOpen (searchEv "" 100 5) dbWidget).1.statusCode = 200 ∧
      respKV (lambda_handler cfgOpen (searchEv "" 100 5) dbWidget).1 "total_count" =
        some (.num 0) ∧
      respKV (lambda_handler cfgOpen (searchEv "" 100 5) dbWidget).1 "limit" =
        some (.num (100 : Rat)) ∧
      respKV (lambda_handler cfgOpen (searchEv "" 100 5) dbWidget).1 "offset" =
        some (.num (5 : Rat)) ∧
      respKV (lambda_handler cfgOpen (searchEv "" 100 5) dbWidget).1 "pagination" =
        none ∧
      (lambda_handler cfgOpen (searchEv "" 100 5) dbWidget).2.2 =
        [Call.search "product.product" (invSearchDomain "") (some (100, 5, "name"))]) ∧
    ((lambda_handler cfgOpen (tagsSearchEv "" 100 5) dbWidget).1.statusCode = 200 ∧
      respKV (lambda_handler cfgOpen (tagsSearchEv "" 100 5) dbWidget).1 "total_count" =
        some (.num 0) ∧
      respKV (lambda_handler cfgOpen (tagsSearchEv "" 100 5) dbWidget).1 "limit" =
        some (.num (100 : Rat)) ∧
      respKV (lambda_handler cfgOpen (tagsSearchEv "" 100 5) dbWidget).1 "offset" =
        some (.num (5 : Rat)) ∧
      respKV (lambda_handler cfgOpen (tagsSearchEv "" 100 5) dbWidget).1 "pagination" =
        none ∧
      (lambda_handler cfgOpen (tagsSearchEv "" 100 5) dbWidget).2.2 =
        [Call.search "product.tag" (tagsDomain "") (some (100, 5, "name"))]) := by
  constructor
  · exact (C10_empty_result cfgOpen ⟨false, .certNone⟩ dbWidget "" 100 5 rfl rfl).1
      (by decide)
  · exact (C10_empty_result cfgOpen ⟨false, .certNone⟩ dbWidget "" 100 5 rfl rfl).2
      (by decide)

/-- C2 witness: the amended statement applied at the concrete open
configuration. -/
theorem C2_witness :
    cfgOpen.VERIFY_SSL_raw = none ∧
    authenticate_request cfgOpen listEv = .ok ⟨false, .certNone⟩ ∧
    (⟨false, VerifyMode.certNone⟩ : SslContext) = ⟨false, .certNone⟩ := by
  exact ⟨rfl, rfl, C2_verify_ssl_default_off cfgOpen listEv _ rfl rfl⟩

end Odoo
